import Mathlib

/-!
Verification of the decision-intelligence revenue-growth dashboard
(`src/App/app.py`) against its natural-language specification.

The app loads three CSV tables (forecast scenarios, ROI simulation
results, segment summaries), computes summary aggregates, and renders
four views.  We embed the tabular data model and each computation the
spec talks about as executable Lean definitions and prove or refute
the spec's claims about them.

Numbers from the CSVs are embedded as rationals (`ℚ`); where the
Python/NumPy float semantics of a non-finite result matters (division
by zero at app.py:151, mean of an empty series at app.py:63) we use
the `PyNum` wrapper that makes `inf` and `nan` explicit values,
mirroring the IEEE behaviour of the NumPy scalars pandas produces.
-/

/-- A calendar date as produced by the Date-column parser. -/
structure CalDate where
  year : Nat
  month : Nat
  day : Nat
  deriving DecidableEq, Repr

/-- One row of `revenue_forecast_scenarios.csv` after loading
(columns per §3/§6 of the spec, Date already parsed). -/
structure ForecastRow where
  Date : CalDate
  Base_Forecast : ℚ
  Best_Case : ℚ
  Worst_Case : ℚ
  Upper_CI : ℚ
  Lower_CI : ℚ
  deriving DecidableEq, Repr

/-- One row of `roi_simulation_results.csv`. -/
structure RoiRow where
  Segment : String
  Investment : ℚ
  Projected_Gain : ℚ
  ROI : ℚ
  BreakEven_Revenue : ℚ
  deriving DecidableEq, Repr

/-- One row of `segment_decision_summary.csv`. -/
structure SegmentRow where
  Cluster : String
  Decision_Action : String
  Customer_Count : Nat
  Avg_Recency : ℚ
  Avg_Frequency : ℚ
  Avg_Monetary : ℚ
  deriving DecidableEq, Repr

/-- A NumPy-style number: finite rational, signed infinity, or NaN. -/
inductive PyNum where
  | fin (q : ℚ)
  | inf
  | ninf
  | nan
  deriving DecidableEq, Repr

/-- NumPy float division: `a / 0` is `inf`/`-inf`/`nan` by the sign of
`a` (a RuntimeWarning, not an exception); otherwise exact division. -/
def pydiv (a b : ℚ) : PyNum :=
  if b = 0 then
    if 0 < a then .inf else if a < 0 then .ninf else .nan
  else .fin (a / b)

/-- The Date column of the forecast table in row order
(`forecast_df['Date'].tolist()`, app.py:113). -/
def forecastDates (forecast : List ForecastRow) : List CalDate :=
  forecast.map (·.Date)

/-- Serial key for comparing calendar dates: y*10000 + m*100 + d. -/
def CalDate.serial (dt : CalDate) : Nat :=
  dt.year * 10000 + dt.month * 100 + dt.day

/-- `chronological forecast` states the forecast rows are ordered by
Date ascending (§3 data-model invariant). -/
abbrev chronological (forecast : List ForecastRow) : Prop :=
  (forecastDates forecast).Pairwise (fun a b => a.serial ≤ b.serial)

/-- The confidence-band trace of the Revenue Forecasting page
(app.py:112–119): x-values are the Date column followed by its
reverse, y-values are Upper_CI followed by reversed Lower_CI
(`x = dates + dates[::-1]`, `y = upper + lower[::-1]`). -/
def confidenceBand (forecast : List ForecastRow) : List CalDate × List ℚ :=
  (forecast.map (·.Date) ++ (forecast.map (·.Date)).reverse,
   forecast.map (·.Upper_CI) ++ (forecast.map (·.Lower_CI)).reverse)

/-- The Efficiency Score of the Segment Deep Dive (app.py:151):
`Projected_Gain / Investment`, unguarded NumPy division. -/
def efficiency (row : RoiRow) : PyNum :=
  pydiv row.Projected_Gain row.Investment

/-- The "Lost" segment row of the spec's zero-investment scenario
(§8): Investment 0, Projected_Gain 500. -/
def lostRow : RoiRow :=
  { Segment := "Lost", Investment := 0, Projected_Gain := 500,
    ROI := 0, BreakEven_Revenue := 0 }

/-- A concrete two-row chronological forecast table. -/
def sampleForecast : List ForecastRow :=
  [ { Date := ⟨2024, 1, 1⟩, Base_Forecast := 100, Best_Case := 120,
      Worst_Case := 80, Upper_CI := 130, Lower_CI := 70 },
    { Date := ⟨2024, 2, 1⟩, Base_Forecast := 110, Best_Case := 130,
      Worst_Case := 90, Upper_CI := 140, Lower_CI := 80 } ]

/-- Segment Deep Dive lookup (app.py:144–145):
`roi_df[roi_df['Segment'] == selected_segment].iloc[0]` — filter the
rows whose Segment equals the selection and take row 0.  `none` models
the IndexError `.iloc[0]` raises on an empty filter result; on
duplicate Segment keys the code silently yields the first match. -/
def seg_data (roi : List RoiRow) (selected_segment : String) : Option RoiRow :=
  (roi.filter (fun r => r.Segment == selected_segment)).head?

/-- First of two distinct rows sharing the Segment key "A". -/
def dupRowA : RoiRow :=
  { Segment := "A", Investment := 10, Projected_Gain := 20,
    ROI := 2, BreakEven_Revenue := 5 }

/-- Second of two distinct rows sharing the Segment key "A". -/
def dupRowB : RoiRow :=
  { Segment := "A", Investment := 30, Projected_Gain := 60,
    ROI := 2, BreakEven_Revenue := 15 }

/-- The character for decimal digit `n` (0–9). -/
def digitChar (n : Nat) : Char :=
  Char.ofNat (48 + n)

/-- The number denoted by a run of decimal digit characters. -/
def digitsToNat (cs : List Char) : Nat :=
  cs.foldl (fun acc c => 10 * acc + (c.toNat - 48)) 0

/-- Modelled from pandas `to_datetime(forecast_df['Date'],
dayfirst=True)` as invoked at app.py:27, restricted to "DD/MM/YYYY"
inputs: the first component is taken as the day, the second as the
month, the third as the year. -/
def parseDayFirst : List Char → Option CalDate
  | [d1, d2, '/', m1, m2, '/', y1, y2, y3, y4] =>
      some { year := digitsToNat [y1, y2, y3, y4],
             month := digitsToNat [m1, m2],
             day := digitsToNat [d1, d2] }
  | _ => none

/-- The ten-character "DD/MM/YYYY" rendering of day `d`, month `m`,
year `y`. -/
def fmtDDMMYYYY (d m y : Nat) : List Char :=
  [digitChar (d / 10), digitChar (d % 10), '/',
   digitChar (m / 10), digitChar (m % 10), '/',
   digitChar (y / 1000), digitChar (y / 100 % 10),
   digitChar (y / 10 % 10), digitChar (y % 10)]

/-- Row comparison by the ROI column, ascending. -/
def roiLe (a b : RoiRow) : Prop :=
  a.ROI ≤ b.ROI

instance : DecidableRel roiLe :=
  fun a b => inferInstanceAs (Decidable (a.ROI ≤ b.ROI))

instance : IsTotal RoiRow roiLe :=
  ⟨fun a b => le_total a.ROI b.ROI⟩

instance : IsTrans RoiRow roiLe :=
  ⟨fun _ _ _ h1 h2 => le_trans h1 h2⟩

/-- ROI bar-chart ordering (app.py:82):
`roi_df.sort_values('ROI', ascending=False)`.  pandas sorts ascending
with `numpy.argsort` — insertion sort on small arrays, hence stable
there — and then reverses the resulting order when `ascending=False`
(`indexer = indexer[::-1]` in `pandas.core.sorting.nargsort`).
Embedded as a stable ascending insertion sort by ROI followed by
reversal. -/
def sort_values_ROI_desc (roi : List RoiRow) : List RoiRow :=
  (List.insertionSort roiLe roi).reverse

/-- First of two distinct rows with equal ROI. -/
def tieRowA : RoiRow :=
  { Segment := "A", Investment := 1, Projected_Gain := 1,
    ROI := 1, BreakEven_Revenue := 1 }

/-- Second of two distinct rows with equal ROI. -/
def tieRowB : RoiRow :=
  { Segment := "B", Investment := 2, Projected_Gain := 2,
    ROI := 1, BreakEven_Revenue := 2 }

/-- The data directory seen by `load_data`: each of the three CSV
files is present (with parsed content) or missing. -/
structure DataDir where
  forecastFile : Option (List ForecastRow)
  roiFile : Option (List RoiRow)
  segmentFile : Option (List SegmentRow)

/-- `pd.read_csv` on a file of a data directory (app.py:22–24): the
parsed table when the file exists, otherwise a FileNotFoundError
carrying the file name. -/
def read_csv {α : Type} (file : Option α) (filename : String) :
    Except String α :=
  match file with
  | some tbl => .ok tbl
  | none => .error filename

/-- `load_data` (app.py:20–28): read the three CSVs in order; the
first failure aborts the whole load with its FileNotFoundError. -/
def load_data (dir : DataDir) :
    Except String (List ForecastRow × List RoiRow × List SegmentRow) := do
  let forecast_df ← read_csv dir.forecastFile "revenue_forecast_scenarios.csv"
  let roi_df ← read_csv dir.roiFile "roi_simulation_results.csv"
  let segment_df ← read_csv dir.segmentFile "segment_decision_summary.csv"
  pure (forecast_df, roi_df, segment_df)

/-- The session outcome of the load (app.py:31–35): the full
dashboard over all three tables, or — via `st.error` + `st.stop()` —
an error screen naming the missing file and rendering nothing else. -/
inductive Session where
  | dashboard (forecast : List ForecastRow) (roi : List RoiRow)
      (segments : List SegmentRow)
  | errorScreen (filename : String)
  deriving DecidableEq

/-- Run the load-and-dispatch prologue of the app (app.py:31–35). -/
def runApp (dir : DataDir) : Session :=
  match load_data dir with
  | .ok (f, r, s) => .dashboard f r s
  | .error filename => .errorScreen filename

/-- Executive-summary average ROI (app.py:63): `roi_df['ROI'].mean()`.
pandas silently returns NaN for the mean of an empty column. -/
def avg_roi (roi : List RoiRow) : PyNum :=
  match roi with
  | [] => .nan
  | _ => .fin ((roi.map (·.ROI)).sum / (roi.length : ℚ))

/-- Executive-summary total investment (app.py:64):
`roi_df['Investment'].sum()`. -/
def total_investment (roi : List RoiRow) : ℚ :=
  (roi.map (·.Investment)).sum

/-- The scenario columns offered by the multiselect (app.py:107–109). -/
inductive ScenarioChoice where
  | Base_Forecast
  | Best_Case
  | Worst_Case
  deriving DecidableEq, Repr

/-- The display name of a scenario column. -/
def scenarioName : ScenarioChoice → String
  | .Base_Forecast => "Base_Forecast"
  | .Best_Case => "Best_Case"
  | .Worst_Case => "Worst_Case"

/-- The fixed color assigned to each scenario (app.py:121). -/
def colors : ScenarioChoice → String
  | .Base_Forecast => "#1f77b4"
  | .Best_Case => "#2ca02c"
  | .Worst_Case => "#d62728"

/-- The column projection `forecast_df[scenario]` (app.py:123). -/
def scenarioValues (forecast : List ForecastRow) : ScenarioChoice → List ℚ
  | .Base_Forecast => forecast.map (·.Base_Forecast)
  | .Best_Case => forecast.map (·.Best_Case)
  | .Worst_Case => forecast.map (·.Worst_Case)

/-- A trace of the forecasting figure: the filled confidence band or
one scenario line. -/
inductive Trace where
  | band (xs : List CalDate) (ys : List ℚ)
  | line (label : String) (color : String) (xs : List CalDate) (ys : List ℚ)
  deriving DecidableEq, Repr

/-- Whether a trace is a scenario line (as opposed to the band). -/
def Trace.isLine : Trace → Bool
  | .line _ _ _ _ => true
  | .band _ _ => false

/-- The Revenue Forecasting figure (app.py:111–124): the confidence
band is added first, then one line per selected scenario in selection
order, colored by the `colors` mapping. -/
def forecastFig (forecast : List ForecastRow)
    (scenarios : List ScenarioChoice) : List Trace :=
  Trace.band (confidenceBand forecast).1 (confidenceBand forecast).2
    :: scenarios.map (fun s =>
        Trace.line (scenarioName s) (colors s)
          (forecast.map (·.Date)) (scenarioValues forecast s))

/-- The three loaded tables of a session. -/
structure Tables where
  forecast_df : List ForecastRow
  roi_df : List RoiRow
  segment_df : List SegmentRow
  deriving DecidableEq

/-- `segment_df['Customer_Count'].sum()` (app.py:61), threading the
table state; pandas aggregation allocates a scalar and leaves the
frame untouched. -/
def sumCustomers (t : Tables) : Nat × Tables :=
  ((t.segment_df.map (·.Customer_Count)).sum, t)

/-- `roi_df['Projected_Gain'].sum()` (app.py:62), threading state. -/
def sumGain (t : Tables) : ℚ × Tables :=
  ((t.roi_df.map (·.Projected_Gain)).sum, t)

/-- `roi_df['ROI'].mean()` (app.py:63), threading state. -/
def meanRoi (t : Tables) : PyNum × Tables :=
  (avg_roi t.roi_df, t)

/-- `roi_df['Investment'].sum()` (app.py:64), threading state. -/
def sumInvestment (t : Tables) : ℚ × Tables :=
  (total_investment t.roi_df, t)

/-- `roi_df.sort_values('ROI', ascending=False)` (app.py:82) returns
a new sorted frame (`inplace` is not used), threading state. -/
def sortRoiDesc (t : Tables) : List RoiRow × Tables :=
  (sort_values_ROI_desc t.roi_df, t)

/-- The boolean-mask filter plus `.iloc[0]` of the deep dive
(app.py:145) produces a fresh row view, threading state. -/
def filterSegment (selected_segment : String) (t : Tables) :
    Option RoiRow × Tables :=
  (seg_data t.roi_df selected_segment, t)

/-- The grouped Investment-vs-Gain bars (app.py:135–138): Segment
labels with the two parallel value columns, threading state. -/
def groupedBarsOp (t : Tables) :
    (List String × List ℚ × List ℚ) × Tables :=
  ((t.roi_df.map (·.Segment), t.roi_df.map (·.Investment),
    t.roi_df.map (·.Projected_Gain)), t)

/-- The confidence-band trace computation (app.py:112–119), threading
state. -/
def bandTraceOp (t : Tables) : (List CalDate × List ℚ) × Tables :=
  (confidenceBand t.forecast_df, t)

/-- What a rendered page hands to the UI layer. -/
inductive PageOutput where
  | summary (total_customers : Nat) (total_gain : ℚ) (avgRoiVal : PyNum)
      (total_inv : ℚ) (roiBars : List RoiRow)
  | segmentation (tbl : List SegmentRow)
  | forecasting (traces : List Trace)
  | roiView (segs : List String) (invs : List ℚ) (gains : List ℚ)
      (deepDive : Option RoiRow)
  deriving DecidableEq

/-- Page 1, Executive Summary (app.py:57–84). -/
def executiveSummaryPage (t : Tables) : PageOutput × Tables :=
  let (total_customers, t1) := sumCustomers t
  let (total_gain, t2) := sumGain t1
  let (avg, t3) := meanRoi t2
  let (total_inv, t4) := sumInvestment t3
  let (bars, t5) := sortRoiDesc t4
  (.summary total_customers total_gain avg total_inv bars, t5)

/-- Page 3, Revenue Forecasting (app.py:105–128). -/
def revenueForecastingPage (t : Tables)
    (scenarios : List ScenarioChoice) : PageOutput × Tables :=
  let (_, t1) := bandTraceOp t
  (.forecasting (forecastFig t1.forecast_df scenarios), t1)

/-- Page 4, ROI Analysis (app.py:131–152). -/
def roiAnalysisPage (t : Tables) (selected_segment : String) :
    PageOutput × Tables :=
  let (bars, t1) := groupedBarsOp t
  let (deep, t2) := filterSegment selected_segment t1
  (.roiView bars.1 bars.2.1 bars.2.2 deep, t2)

/-- The four pages of the sidebar radio control (app.py:54). -/
inductive Page where
  | executiveSummary
  | customerSegmentation
  | revenueForecasting
  | roiAnalysis
  deriving DecidableEq, Repr

/-- The view router (app.py:57–152): dispatch the selected page to
its computations, given the control selections. -/
def runPage (t : Tables) : Page → List ScenarioChoice → String →
    PageOutput × Tables
  | .executiveSummary, _, _ => executiveSummaryPage t
  | .customerSegmentation, _, _ => (.segmentation t.segment_df, t)
  | .revenueForecasting, scenarios, _ => revenueForecastingPage t scenarios
  | .roiAnalysis, _, selected_segment => roiAnalysisPage t selected_segment

theorem digitChar_toNat (k : Nat) (h : k < 10) :
    (digitChar k).toNat = 48 + k := by
  interval_cases k <;> decide

theorem digitsToNat_two (a b : Nat) (ha : a < 10) (hb : b < 10) :
    digitsToNat [digitChar a, digitChar b] = 10 * a + b := by
  simp only [digitsToNat, List.foldl_cons, List.foldl_nil,
    digitChar_toNat a ha, digitChar_toNat b hb]
  omega

theorem digitsToNat_four (a b c d : Nat) (ha : a < 10) (hb : b < 10)
    (hc : c < 10) (hd : d < 10) :
    digitsToNat [digitChar a, digitChar b, digitChar c, digitChar d]
      = 1000 * a + 100 * b + 10 * c + d := by
  simp only [digitsToNat, List.foldl_cons, List.foldl_nil,
    digitChar_toNat a ha, digitChar_toNat b hb,
    digitChar_toNat c hc, digitChar_toNat d hd]
  omega

/-- Claim C1: for every chronological forecast table, the
confidence-band trace has x-values equal to the Date sequence
concatenated with its reverse and y-values equal to the Upper_CI
sequence concatenated with the reversed Lower_CI sequence; its length
is twice the number of rows, its first half is the Date sequence and
its second half the reverse. -/
theorem confidenceBand_spec (forecast : List ForecastRow)
    (_hchron : chronological forecast) :
    (confidenceBand forecast).1
        = forecastDates forecast ++ (forecastDates forecast).reverse
    ∧ (confidenceBand forecast).2
        = forecast.map (·.Upper_CI) ++ (forecast.map (·.Lower_CI)).reverse
    ∧ (confidenceBand forecast).1.length = 2 * forecast.length
    ∧ (confidenceBand forecast).2.length = 2 * forecast.length
    ∧ (confidenceBand forecast).1.take forecast.length = forecastDates forecast
    ∧ (confidenceBand forecast).1.drop forecast.length
        = (forecastDates forecast).reverse := by
  refine ⟨rfl, rfl, ?_, ?_, ?_, ?_⟩
  · simp [confidenceBand, two_mul]
  · simp [confidenceBand, two_mul]
  · have h : (forecast.map (·.Date)).length = forecast.length := by simp
    show (forecast.map (·.Date) ++ (forecast.map (·.Date)).reverse).take
        forecast.length = forecast.map (·.Date)
    exact List.take_left' h
  · have h : (forecast.map (·.Date)).length = forecast.length := by simp
    show (forecast.map (·.Date) ++ (forecast.map (·.Date)).reverse).drop
        forecast.length = (forecast.map (·.Date)).reverse
    exact List.drop_left' h

/-- Witness for C1: the confidence-band property holds at a concrete
chronological two-row forecast table. -/
theorem confidenceBand_spec_witness :
    (confidenceBand sampleForecast).1
        = forecastDates sampleForecast ++ (forecastDates sampleForecast).reverse
    ∧ (confidenceBand sampleForecast).2
        = sampleForecast.map (·.Upper_CI)
            ++ (sampleForecast.map (·.Lower_CI)).reverse
    ∧ (confidenceBand sampleForecast).1.length = 2 * sampleForecast.length
    ∧ (confidenceBand sampleForecast).2.length = 2 * sampleForecast.length
    ∧ (confidenceBand sampleForecast).1.take sampleForecast.length
        = forecastDates sampleForecast
    ∧ (confidenceBand sampleForecast).1.drop sampleForecast.length
        = (forecastDates sampleForecast).reverse :=
  confidenceBand_spec sampleForecast (by decide)

/-- Claim C2 (code bug): at the spec's zero-investment scenario the
code's unguarded division (app.py:151) evaluates to NumPy infinity —
it does not fail with a `DivisionByZeroError` as the claim requires. -/
theorem efficiency_zero_investment_is_inf :
    lostRow.Investment = 0 ∧ efficiency lostRow = PyNum.inf := by
  constructor
  · rfl
  · decide

/-- Claim C3 (code bug): on a table with two distinct rows whose
Segment is "A", the lookup silently returns the first row instead of
failing with a `DuplicateKeyError` as the claim requires. -/
theorem seg_data_duplicate_returns_first :
    dupRowA ≠ dupRowB
    ∧ (List.filter (fun r => r.Segment == "A") [dupRowA, dupRowB]).length = 2
    ∧ seg_data [dupRowA, dupRowB] "A" = some dupRowA := by
  decide

/-- Claim C4: day-first parsing of any "DD/MM/YYYY" string takes the
first component as the day, so "05/03/2024" yields 5 March 2024; when
day and month differ the result is a different date from the
month-first reading. -/
theorem parseDayFirst_day_first (d m y : Nat)
    (hd : d < 100) (hm : m < 100) (hy : y < 10000) :
    parseDayFirst (fmtDDMMYYYY d m y)
        = some { year := y, month := m, day := d }
    ∧ (d ≠ m →
        ({ year := y, month := m, day := d } : CalDate)
          ≠ { year := y, month := d, day := m }) := by
  constructor
  · show some _ = some _
    have h2 : digitsToNat [digitChar (d / 10), digitChar (d % 10)] = d := by
      rw [digitsToNat_two (d / 10) (d % 10) (by omega) (by omega)]
      omega
    have h3 : digitsToNat [digitChar (m / 10), digitChar (m % 10)] = m := by
      rw [digitsToNat_two (m / 10) (m % 10) (by omega) (by omega)]
      omega
    have h4 : digitsToNat [digitChar (y / 1000), digitChar (y / 100 % 10),
        digitChar (y / 10 % 10), digitChar (y % 10)] = y := by
      rw [digitsToNat_four (y / 1000) (y / 100 % 10) (y / 10 % 10) (y % 10)
        (by omega) (by omega) (by omega) (by omega)]
      omega
    rw [h2, h3, h4]
  · intro hne heq
    exact hne (by simpa using congrArg CalDate.day heq)

/-- Witness for C4: "05/03/2024" parses to 5 March 2024, which is not
3 May 2024. -/
theorem parseDayFirst_day_first_witness :
    parseDayFirst (fmtDDMMYYYY 5 3 2024)
        = some { year := 2024, month := 3, day := 5 }
    ∧ ((5 : Nat) ≠ 3 →
        ({ year := 2024, month := 3, day := 5 } : CalDate)
          ≠ { year := 2024, month := 5, day := 3 }) :=
  parseDayFirst_day_first 5 3 2024 (by decide) (by decide) (by decide)

/-- Claim C5 counterexample: on a two-row table with equal ROI values
the descending ROI sort returns the rows in reversed input order, so
two rows with equal ROI do not retain their relative input order —
the sort is not stable. -/
theorem sort_values_ROI_desc_ties_reversed :
    tieRowA.ROI = tieRowB.ROI
    ∧ tieRowA ≠ tieRowB
    ∧ sort_values_ROI_desc [tieRowA, tieRowB] = [tieRowB, tieRowA] := by
  decide

/-- Claim C5 (amended): the descending ROI sort produces a sequence
whose ROI values are non-increasing and which is a permutation of the
input table; it is not stable — equal-ROI rows come out in reversed
relative order, as the counterexample shows. -/
theorem sort_values_ROI_desc_antitone_perm (roi : List RoiRow) :
    (sort_values_ROI_desc roi).Pairwise (fun a b => b.ROI ≤ a.ROI)
    ∧ (sort_values_ROI_desc roi).Perm roi := by
  constructor
  · show ((List.insertionSort roiLe roi).reverse).Pairwise
      (fun a b => b.ROI ≤ a.ROI)
    rw [List.pairwise_reverse]
    exact (List.sorted_insertionSort roiLe roi).imp (fun hab => hab)
  · show ((List.insertionSort roiLe roi).reverse).Perm roi
    exact (List.reverse_perm _).trans (List.perm_insertionSort roiLe roi)

/-- Claim C6: loading is atomic — either all three files are present
and the session renders the dashboard over exactly the three loaded
tables, or the session is the error screen naming one of the three
(missing) files and no dashboard is rendered at all. -/
theorem load_data_atomic (dir : DataDir) :
    (∃ f r s, dir.forecastFile = some f ∧ dir.roiFile = some r
        ∧ dir.segmentFile = some s ∧ runApp dir = Session.dashboard f r s)
    ∨ (∃ missing, (missing = "revenue_forecast_scenarios.csv"
          ∨ missing = "roi_simulation_results.csv"
          ∨ missing = "segment_decision_summary.csv")
        ∧ runApp dir = Session.errorScreen missing
        ∧ ∀ f r s, runApp dir ≠ Session.dashboard f r s) := by
  obtain ⟨ff, rf, sf⟩ := dir
  cases ff with
  | none =>
      right
      refine ⟨"revenue_forecast_scenarios.csv", Or.inl rfl, rfl, ?_⟩
      intro f r s h
      exact Session.noConfusion h
  | some f =>
    cases rf with
    | none =>
        right
        refine ⟨"roi_simulation_results.csv", Or.inr (Or.inl rfl), rfl, ?_⟩
        intro f2 r s h
        exact Session.noConfusion h
    | some r =>
      cases sf with
      | none =>
          right
          refine ⟨"segment_decision_summary.csv", Or.inr (Or.inr rfl),
            rfl, ?_⟩
          intro f2 r2 s h
          exact Session.noConfusion h
      | some s =>
          left
          exact ⟨f, r, s, rfl, rfl, rfl, rfl⟩

/-- Claim C7 (code bug): the average-ROI metric (app.py:63) applied
to the empty ROI table silently evaluates to NaN — no error is
signaled to the caller, contrary to the claim. -/
theorem avg_roi_empty_is_nan : avg_roi [] = PyNum.nan := rfl

/-- Claim C8: for every non-empty ROI table the total investment is
the sum of the rows' Investment values, and permuting the rows leaves
it unchanged. -/
theorem total_investment_perm (roi roi2 : List RoiRow)
    (_hne : roi ≠ []) (hperm : roi.Perm roi2) :
    total_investment roi = (roi.map (·.Investment)).sum
    ∧ total_investment roi = total_investment roi2 := by
  refine ⟨rfl, ?_⟩
  exact List.Perm.sum_eq (hperm.map (·.Investment))

/-- Witness for C8: total investment of a concrete two-row table
equals the column sum and is invariant under swapping the rows. -/
theorem total_investment_perm_witness :
    total_investment [dupRowA, dupRowB]
        = ([dupRowA, dupRowB].map (·.Investment)).sum
    ∧ total_investment [dupRowA, dupRowB]
        = total_investment [dupRowB, dupRowA] :=
  total_investment_perm [dupRowA, dupRowB] [dupRowB, dupRowA]
    (by decide) (by decide)

/-- Claim C9: every view computation — summary metrics, the sorted
ROI bar chart, the forecasting figure, the deep-dive filter — leaves
the three loaded tables exactly as they were at load time, for every
page and every control selection. -/
theorem runPage_leaves_tables_unchanged (t : Tables) (p : Page)
    (scenarios : List ScenarioChoice) (selected_segment : String) :
    (runPage t p scenarios selected_segment).2 = t := by
  cases p <;> rfl

/-- Claim C10: with an empty scenario selection the forecasting
figure is still produced and consists of exactly the one confidence
band trace — one trace in total, zero scenario lines — and the
computation is total, raising no error. -/
theorem forecastFig_empty_selection (forecast : List ForecastRow) :
    forecastFig forecast []
        = [Trace.band (confidenceBand forecast).1 (confidenceBand forecast).2]
    ∧ (forecastFig forecast []).length = 1
    ∧ (forecastFig forecast []).countP (fun tr => tr.isLine) = 0 := by
  refine ⟨rfl, rfl, ?_⟩
  simp [forecastFig, Trace.isLine]
